import Mathlib

/-!
Verification of the streaming-response core of interview_assistant.py.

The development shallowly embeds the queue-event-producing parts of the
program: the two provider streaming transports, the generation worker,
the submission gating on the interactive thread, the prompt builder and
the conversation state.  Each definition is translated from the named
source function; environment behaviour (HTTP line delivery, SDK stream
items, tkinter event delivery) is modelled as explicit input lists.
-/

namespace InterviewAssistant

/-- Python truthiness of an optional string: None and the empty string are
falsy, every other string is truthy. -/
def optTruthy : Option String → Bool
  | some s => !s.isEmpty
  | none => false

/-- Outcome of handling one SSE payload (the text after the literal
"data: ") inside the loop of _get_openrouter_answer (lines 576-586):
the "[DONE]" sentinel; a payload on which json.loads raises
JSONDecodeError; a parsed JSON object, abstracted to the value of
choices[0].delta.get("content") (none when the "choices" key is absent
or the delta has no content); or a parsed JSON object whose field access
raises an uncaught exception (for example an empty "choices" array, where
chunk["choices"][0] raises IndexError, which no handler in
_get_openrouter_answer catches). -/
inductive Payload where
  | done : Payload
  | malformed : Payload
  | chunk (content : Option String) : Payload
  | badShape (msg : String) : Payload
deriving DecidableEq

/-- One step of the HTTP response as observed by the loop of
_get_openrouter_answer: a line starting with "data: " carrying a payload;
any other line (empty or non-data, skipped by the guard on line 577); or
a requests.exceptions.RequestException raised at this point of the
transfer (this also models a failing initial POST / raise_for_status,
as a fault at the head of the list). -/
inductive RespItem where
  | data (p : Payload) : RespItem
  | other : RespItem
  | fault (msg : String) : RespItem
deriving DecidableEq

/-- A stream event enqueued on the message channel by a transport, tagged
by its producing call site: fragment events come from the per-chunk
queue.put(("stream_update", text_chunk)) sites, failure events from the
queue.put in an except handler.  Both reach the queue as a
("stream_update", text) message. -/
inductive TEvent where
  | fragment (text : String) : TEvent
  | failure (text : String) : TEvent
deriving DecidableEq

/-- Error text built on line 588 of _get_openrouter_answer. -/
def connErrText (m : String) : String := "\n❌ API Connection Error: " ++ m

/-- Shallow embedding of the body of _get_openrouter_answer
(lines 573-588): the events it enqueues, in order, together with an
uncaught exception if one escapes the function.  A fault is caught by the
RequestException handler, which enqueues one error text and returns; the
"[DONE]" sentinel breaks out of the loop; a JSONDecodeError payload is
skipped by the continue on line 586; a chunk with truthy content is
enqueued as a fragment; a badShape payload raises out of the function
(only the caller catches it). -/
def openrouterEvents : List RespItem → List TEvent × Option String
  | [] => ([], none)
  | .other :: rest => openrouterEvents rest
  | .fault m :: _ => ([.failure (connErrText m)], none)
  | .data .done :: _ => ([], none)
  | .data .malformed :: rest => openrouterEvents rest
  | .data (.badShape m) :: _ => ([], some m)
  | .data (.chunk c) :: rest =>
      if optTruthy c then
        (.fragment (c.getD "") :: (openrouterEvents rest).1, (openrouterEvents rest).2)
      else openrouterEvents rest

/-- C1: an OpenRouter run delivering N well-formed data chunks with
non-empty delta content, followed by the "[DONE]" sentinel, enqueues
exactly the N texts as fragment events in order, raises nothing, and
reads nothing after the sentinel (the trailing items do not influence the
result). -/
theorem openrouter_wellformed_stream_in_order
    (texts : List String) (rest : List RespItem)
    (h : ∀ t ∈ texts, t ≠ "") :
    openrouterEvents
        (texts.map (fun t => RespItem.data (Payload.chunk (some t)))
          ++ RespItem.data Payload.done :: rest)
      = (texts.map TEvent.fragment, none) := by
  induction texts with
  | nil => rfl
  | cons t ts ih =>
      have ht : optTruthy (some t) = true := by
        have hne : t ≠ "" := h t (List.mem_cons_self t ts)
        simp [optTruthy, Bool.eq_false_iff, String.isEmpty_iff, hne]
      have ih' := ih (fun x hx => h x (List.mem_cons_of_mem t hx))
      simp [openrouterEvents, ht, ih']

/-- Witness for C1 at the scenario fragments of the spec; the item after
the sentinel is a fault, showing the sentinel really stops the read. -/
theorem openrouter_wellformed_stream_in_order_witness :
    openrouterEvents
        ((["I ", "focus on ", "growth."].map
            (fun t => RespItem.data (Payload.chunk (some t))))
          ++ RespItem.data Payload.done :: [RespItem.fault "late"])
      = ([TEvent.fragment "I ", TEvent.fragment "focus on ",
          TEvent.fragment "growth."], none) :=
  openrouter_wellformed_stream_in_order
    ["I ", "focus on ", "growth."] [RespItem.fault "late"] (by decide)

/-- C5: a data chunk whose payload json.loads cannot parse is skipped
without terminating the stream: deleting it from the response changes
nothing, so every subsequent well-formed fragment is still delivered. -/
theorem openrouter_malformed_chunk_skipped (xs ys : List RespItem) :
    openrouterEvents (xs ++ RespItem.data Payload.malformed :: ys)
      = openrouterEvents (xs ++ ys) := by
  induction xs with
  | nil => simp [openrouterEvents]
  | cons x xs ih =>
      cases x with
      | other => simpa [openrouterEvents] using ih
      | fault m => simp [openrouterEvents]
      | data p =>
          cases p with
          | done => simp [openrouterEvents]
          | malformed => simpa [openrouterEvents] using ih
          | badShape m => simp [openrouterEvents]
          | chunk c =>
              by_cases hc : optTruthy c = true
              · simp [openrouterEvents, hc, ih]
              · simp [openrouterEvents, hc, ih]

/-- One step of the Google SDK stream as observed by the loop of
_get_google_gemini_answer (lines 594-598): a chunk whose text attribute
yields the given string (the empty string models a falsy delta, skipped
by the guard), or a fault raised at this point of the iteration (the
except handler on line 599 catches every exception, including one raised
by the text accessor itself). -/
inductive GItem where
  | chunk (text : String) : GItem
  | fault (msg : String) : GItem
deriving DecidableEq

/-- Error text built on line 600 of _get_google_gemini_answer. -/
def googleErrText (m : String) : String := "\n❌ Google AI Error: " ++ m

/-- The loop of _get_google_gemini_answer: truthy chunk texts are
enqueued in order; a raised fault is caught and turned into exactly one
error event, ending the read. -/
def geminiLoop : List GItem → List TEvent
  | [] => []
  | .chunk t :: rest => if t.isEmpty then geminiLoop rest else .fragment t :: geminiLoop rest
  | .fault m :: _ => [.failure (googleErrText m)]

/-- Shallow embedding of _get_google_gemini_answer (lines 590-600):
when self.gemini_model was never initialized the function enqueues one
error text and returns; otherwise it consumes the stream.  No exception
ever escapes (the handler catches Exception). -/
def googleGeminiEvents (modelInit : Bool) (items : List GItem) : List TEvent :=
  if modelInit then geminiLoop items
  else [.failure "\n❌ Google AI model not initialized."]

/-- Items of the OpenRouter response that neither terminate the loop nor
raise: non-data lines, unparseable payloads, and parsed chunks. -/
def RespItem.progresses : RespItem → Bool
  | .other => true
  | .data .malformed => true
  | .data (.chunk _) => true
  | _ => false

/-- The fragment texts the OpenRouter loop extracts from a run of
non-terminating items. -/
def orFragTexts : List RespItem → List String
  | [] => []
  | .data (.chunk c) :: rest =>
      if optTruthy c then c.getD "" :: orFragTexts rest else orFragTexts rest
  | _ :: rest => orFragTexts rest

/-- Whether a Google SDK stream item is a chunk (did not raise). -/
def GItem.isChunk : GItem → Bool
  | .chunk _ => true
  | .fault _ => false

/-- The fragment texts the Google loop extracts from a run of chunks. -/
def gFragTexts : List GItem → List String
  | [] => []
  | .chunk t :: rest => if t.isEmpty then gFragTexts rest else t :: gFragTexts rest
  | .fault _ :: rest => gFragTexts rest

theorem openrouter_fault_aux (pre : List RespItem) (m : String)
    (rest : List RespItem) (hpre : ∀ i ∈ pre, i.progresses = true) :
    openrouterEvents (pre ++ RespItem.fault m :: rest)
      = ((orFragTexts pre).map TEvent.fragment ++ [TEvent.failure (connErrText m)],
         none) := by
  induction pre with
  | nil => simp [openrouterEvents, orFragTexts]
  | cons x xs ih =>
      have hx := hpre x (List.mem_cons_self x xs)
      have ih' := ih (fun i hi => hpre i (List.mem_cons_of_mem x hi))
      cases x with
      | other => simpa [openrouterEvents, orFragTexts] using ih'
      | fault m' => simp [RespItem.progresses] at hx
      | data p =>
          cases p with
          | done => simp [RespItem.progresses] at hx
          | badShape m' => simp [RespItem.progresses] at hx
          | malformed => simpa [openrouterEvents, orFragTexts] using ih'
          | chunk c =>
              by_cases hc : optTruthy c = true
              · simp [openrouterEvents, orFragTexts, hc, ih']
              · simp [openrouterEvents, orFragTexts, hc, ih']

theorem gemini_fault_aux (pre : List GItem) (m : String) (rest : List GItem)
    (hpre : ∀ i ∈ pre, i.isChunk = true) :
    geminiLoop (pre ++ GItem.fault m :: rest)
      = (gFragTexts pre).map TEvent.fragment ++ [TEvent.failure (googleErrText m)] := by
  induction pre with
  | nil => simp [geminiLoop, gFragTexts]
  | cons x xs ih =>
      have hx := hpre x (List.mem_cons_self x xs)
      have ih' := ih (fun i hi => hpre i (List.mem_cons_of_mem x hi))
      cases x with
      | fault m' => simp [GItem.isChunk] at hx
      | chunk t =>
          by_cases ht : t.isEmpty = true
          · simpa [geminiLoop, gFragTexts, ht] using ih'
          · simp [geminiLoop, gFragTexts, ht, ih']

/-- C4: on a connection-level failure (HTTP transport) or a raised fault
(SDK transport), each transport enqueues the fragments already extracted
from the items before the fault — a possibly empty run of fragment
events, none retracted — followed by exactly one failure event carrying a
human-readable error text, and enqueues nothing after it (the items after
the fault are never read, and nothing escapes uncaught). -/
theorem transports_fault_one_failure_event
    (pre : List RespItem) (m : String) (rest : List RespItem)
    (hpre : ∀ i ∈ pre, i.progresses = true)
    (gpre : List GItem) (gm : String) (grest : List GItem)
    (hg : ∀ i ∈ gpre, i.isChunk = true) :
    openrouterEvents (pre ++ RespItem.fault m :: rest)
      = ((orFragTexts pre).map TEvent.fragment ++ [TEvent.failure (connErrText m)],
         none)
    ∧ googleGeminiEvents true (gpre ++ GItem.fault gm :: grest)
      = (gFragTexts gpre).map TEvent.fragment ++ [TEvent.failure (googleErrText gm)] :=
  ⟨openrouter_fault_aux pre m rest hpre, gemini_fault_aux gpre gm grest hg⟩

/-- Witness for C4: a two-fragment prefix, a mid-stream fault, and
unread trailing items, on both transports. -/
theorem transports_fault_one_failure_event_witness :
    openrouterEvents
        ([RespItem.data (Payload.chunk (some "a")), RespItem.other,
          RespItem.data Payload.malformed, RespItem.data (Payload.chunk (some "b"))]
          ++ RespItem.fault "reset" :: [RespItem.data Payload.done])
      = ([TEvent.fragment "a", TEvent.fragment "b",
          TEvent.failure (connErrText "reset")], none)
    ∧ googleGeminiEvents true
        ([GItem.chunk "x", GItem.chunk ""] ++ GItem.fault "quota" :: [GItem.chunk "y"])
      = [TEvent.fragment "x", TEvent.failure (googleErrText "quota")] :=
  transports_fault_one_failure_event
    [RespItem.data (Payload.chunk (some "a")), RespItem.other,
     RespItem.data Payload.malformed, RespItem.data (Payload.chunk (some "b"))]
    "reset" [RespItem.data Payload.done] (by decide)
    [GItem.chunk "x", GItem.chunk ""] "quota" [GItem.chunk "y"] (by decide)

/-- The SYSTEM_PROMPT_BASE literal of the source (lines 66-71). -/
def SYSTEM_PROMPT_BASE : String :=
  "\nYou are an expert career coach acting as Oliver Revelo. Your task is to answer interview questions based on the persona and context provided below.\nYour answers must be concise, professional, and directly reflect Oliver\x27s skills, experiences, design philosophy, and communication style.\nIntegrate the details from all provided context naturally into your answers. If company context is provided, tailor your answer to that specific company.\nStart your answer directly, without introductory phrases like \"As Oliver...\" or \"Based on my experience...\".\n"

/-- The SYSTEM_PROMPT_EVALUATION literal of the source (lines 73-82). -/
def SYSTEM_PROMPT_EVALUATION : String :=
  "\nYou are an expert career coach. Your task is to evaluate an interview answer provided by a user who is role-playing as Oliver Revelo.\nFirst, review Oliver\x27s personal and professional context.\nThen, review the user\x27s answer to the interview question.\nProvide constructive, concise feedback in markdown format. Focus on these points:\n- **Strengths:** What did the user do well? Did they align with Oliver\x27s persona?\n- **Areas for Improvement:** How could the answer be stronger, more concise, or better aligned with Oliver\x27s skills and philosophy?\n- **Suggested Answer:** Provide an improved, example answer that Oliver might give.\nYour feedback should be encouraging and aim to help the user improve.\n"

/-- The company context section appended on lines 457 and 463. -/
def companyBlock (cc : String) : String := "--- COMPANY CONTEXT ---\n" ++ cc ++ "\n\n"

/-- Python str.strip modelled on the character list: whitespace removed
from both ends.  Structural recursion, so concrete instances evaluate. -/
def pyStrip (s : String) : String :=
  ⟨((s.data.dropWhile Char.isWhitespace).reverse.dropWhile Char.isWhitespace).reverse⟩

/-- The delimiter between the system prompt and the persona context. -/
def contextHeader : String := "\n\n--- OLIVER\x27S CONTEXT ---\n"

/-- Shallow embedding of _generate_prompt (lines 452-465).  The
evaluation branch is taken when evaluation mode is on and the user
answer is truthy; the company context section is included exactly when
the stripped company context is non-empty (Python strip is modelled by
pyStrip). -/
def generate_prompt (evalMode : Bool) (personalContext companyContext question : String)
    (userAnswer : Option String) : String :=
  if evalMode && optTruthy userAnswer then
    SYSTEM_PROMPT_EVALUATION ++ contextHeader ++ personalContext ++ "\n\n"
      ++ (if pyStrip companyContext = "" then "" else companyBlock companyContext)
      ++ "--- INTERVIEW QUESTION ---\n" ++ question
      ++ "\n\n--- USER\x27S ANSWER AS OLIVER ---\n" ++ userAnswer.getD ""
      ++ "\n\nNow, provide your evaluation:"
  else
    SYSTEM_PROMPT_BASE ++ contextHeader ++ personalContext ++ "\n\n"
      ++ (if pyStrip companyContext = "" then "" else companyBlock companyContext)
      ++ "Now, answer the following question:\nQUESTION: " ++ question

/-- Everything a non-evaluation prompt puts before the optional company
context section. -/
def nonEvalPre (pc : String) : String :=
  SYSTEM_PROMPT_BASE ++ contextHeader ++ pc ++ "\n\n"

/-- The question section closing a non-evaluation prompt. -/
def nonEvalQuestionPart (q : String) : String :=
  "Now, answer the following question:\nQUESTION: " ++ q

theorem containsOfDecomp (a pat b s : String) (h : a ++ pat ++ b = s) :
    pat.data <:+: s.data := by
  subst h
  rw [String.data_append, String.data_append]
  exact List.infix_append _ _ _

/-- C6: a prompt built in non-evaluation mode contains the persona
context and the question text, and decomposes as fixed text around an
optional company section that is present exactly when the company
context is non-empty; when present, the company section occurs in the
rendered string.  The build is a pure function of its arguments
(generate_prompt is a Lean function, hence deterministic).  The
hypothesis that the company context is fixed by stripping is an invariant
of the program: self.company_context is the empty string at startup
(line 105) and is only ever assigned an already-stripped string
(line 422). -/
theorem generate_prompt_nonEval_contents (pc cc q : String) (ua : Option String)
    (hcc : pyStrip cc = cc) :
    pc.data <:+: (generate_prompt false pc cc q ua).data
    ∧ q.data <:+: (generate_prompt false pc cc q ua).data
    ∧ generate_prompt false pc cc q ua
        = nonEvalPre pc ++ (if cc = "" then "" else companyBlock cc)
            ++ nonEvalQuestionPart q
    ∧ (cc ≠ "" → (companyBlock cc).data <:+: (generate_prompt false pc cc q ua).data) := by
  refine ⟨?_, ?_, ?_, ?_⟩
  · exact containsOfDecomp (SYSTEM_PROMPT_BASE ++ contextHeader) pc
      ("\n\n" ++ (if cc = "" then "" else companyBlock cc) ++ nonEvalQuestionPart q) _
      (by simp [generate_prompt, nonEvalQuestionPart, hcc, String.append_assoc])
  · exact containsOfDecomp
      (SYSTEM_PROMPT_BASE ++ contextHeader ++ pc ++ "\n\n"
        ++ (if cc = "" then "" else companyBlock cc)
        ++ "Now, answer the following question:\nQUESTION: ") q "" _
      (by simp [generate_prompt, hcc, String.append_assoc, String.append_empty])
  · simp [generate_prompt, nonEvalPre, nonEvalQuestionPart, hcc, String.append_assoc]
  · intro hne
    exact containsOfDecomp (nonEvalPre pc) (companyBlock cc) (nonEvalQuestionPart q) _
      (by simp [generate_prompt, nonEvalPre, nonEvalQuestionPart, hcc, hne,
                String.append_assoc])

/-- Witness for C6 at concrete persona, company and question strings. -/
theorem generate_prompt_nonEval_contents_witness :
    "Persona".data <:+: (generate_prompt false "Persona" "Acme" "Why?" none).data
    ∧ "Why?".data <:+: (generate_prompt false "Persona" "Acme" "Why?" none).data
    ∧ generate_prompt false "Persona" "Acme" "Why?" none
        = nonEvalPre "Persona" ++ (if "Acme" = "" then "" else companyBlock "Acme")
            ++ nonEvalQuestionPart "Why?"
    ∧ ("Acme" ≠ "" →
        (companyBlock "Acme").data <:+:
          (generate_prompt false "Persona" "Acme" "Why?" none).data) :=
  generate_prompt_nonEval_contents "Persona" "Acme" "Why?" none (by decide)

/-- One entry of the MODELS table (lines 36-41): remote model id,
provider kind, and the name of the required credential. -/
structure ModelConfig where
  id : String
  api : String
  keyName : String
deriving DecidableEq

/-- The MODELS dictionary of the source (lines 36-41), as the lookup
MODELS.get performs on line 544. -/
def MODELS (name : String) : Option ModelConfig :=
  if name = "Sonoma Sky (OpenRouter)" then
    some ⟨"openrouter/sonoma-sky-alpha", "openrouter", "OPENROUTER_API_KEY"⟩
  else if name = "Sonoma Dusk (OpenRouter)" then
    some ⟨"openrouter/sonoma-dusk-alpha", "openrouter", "OPENROUTER_API_KEY"⟩
  else if name = "Gemini 2.0 Flash (OpenRouter)" then
    some ⟨"google/gemini-2.0-flash-exp:free", "openrouter", "OPENROUTER_API_KEY"⟩
  else if name = "Gemini 1.5 Flash (Google AI)" then
    some ⟨"gemini-1.5-flash-latest", "google", "GOOGLE_API_KEY"⟩
  else none

/-- A message placed on the thread-safe queue by the generation worker,
one constructor per (tag, payload) pair the worker produces:
("add_message", (speaker, text, tag)), ("stream_update", text) and
("set_ui_state", enabled). -/
inductive QEvent where
  | addMessage (speaker text tag : String) : QEvent
  | streamUpdate (text : String) : QEvent
  | setUiState (enabled : Bool) : QEvent
deriving DecidableEq

/-- The queue payload of a transport event: both call-site kinds reach
the channel as a ("stream_update", text) message. -/
def TEvent.toQEvent : TEvent → QEvent
  | .fragment s => .streamUpdate s
  | .failure s => .streamUpdate s

/-- Everything get_ai_answer reads from the surrounding object and from
the environment: the selected model name, the module-global credential
lookup (globals().get of the key name, line 549), the evaluation-mode
flag, the contexts used by the prompt builder, whether the Gemini SDK
model object was initialized, and the stream each transport would
observe if invoked. -/
structure WorkerInput where
  selectedModelName : String
  env : String → Option String
  evaluationMode : Bool
  personalContext : String
  companyContext : String
  geminiInit : Bool
  orItems : List RespItem
  gItems : List GItem

/-- The events the except handler on lines 565-566 enqueues for an
exception escaping a transport: one stream_update with the error text,
or nothing when no exception escaped. -/
def exnEventsOf : Option String → List QEvent
  | some e => [.streamUpdate ("\n❌ Unexpected Error during API call: " ++ e)]
  | none => []

/-- Shallow embedding of get_ai_answer (lines 543-568): the ordered list
of queue events one invocation enqueues.  The two early error paths
enqueue an error entry and ("set_ui_state", True) and return; otherwise
the prompt is built, an empty conversation entry is opened, the transport
matching the provider kind is consumed, an exception escaping the
transport is caught by the except on line 565 and reported as a
stream_update, and the finally on line 567 always enqueues
("set_ui_state", True) last. -/
def get_ai_answer (inp : WorkerInput) (question : String)
    (userAnswer : Option String) : List QEvent :=
  match MODELS inp.selectedModelName with
  | none =>
      [.addMessage "Error:"
         ("Model \x27" ++ inp.selectedModelName ++ "\x27 not configured.") "error",
       .setUiState true]
  | some mc =>
      if optTruthy (inp.env mc.keyName) = false then
        [.addMessage "Error:"
           ("\n❌ API Key Error: " ++ mc.keyName ++ " not found in .env file.") "error",
         .setUiState true]
      else
        let _fullPrompt := generate_prompt inp.evaluationMode inp.personalContext
          inp.companyContext question userAnswer
        let speaker := if inp.evaluationMode then "AI (Evaluation):" else "AI:"
        let tag := if inp.evaluationMode then "eval" else "ai"
        let res : List TEvent × Option String :=
          if mc.api = "openrouter" then openrouterEvents inp.orItems
          else if mc.api = "google" then (googleGeminiEvents inp.geminiInit inp.gItems, none)
          else ([], none)
        .addMessage speaker "" tag
          :: (res.1.map TEvent.toQEvent ++ exnEventsOf res.2 ++ [.setUiState true])

/-- Recognizer for the controls-re-enabling event ("set_ui_state", True). -/
def QEvent.isEnableControls : QEvent → Bool
  | .setUiState true => true
  | _ => false

theorem transport_events_no_enable (tevs : List TEvent) :
    (tevs.map TEvent.toQEvent).countP QEvent.isEnableControls = 0 := by
  induction tevs with
  | nil => rfl
  | cons t ts ih =>
      cases t with
      | fragment s => simpa [TEvent.toQEvent, QEvent.isEnableControls] using ih
      | failure s => simpa [TEvent.toQEvent, QEvent.isEnableControls] using ih

theorem exn_events_no_enable (ex : Option String) :
    (exnEventsOf ex).countP QEvent.isEnableControls = 0 := by
  cases ex <;> rfl

theorem worker_tail_spec (x : QEvent) (hx : QEvent.isEnableControls x = false)
    (tevs : List TEvent) (ex : Option String) :
    (x :: (tevs.map TEvent.toQEvent ++ exnEventsOf ex
        ++ [QEvent.setUiState true])).countP QEvent.isEnableControls = 1
    ∧ (x :: (tevs.map TEvent.toQEvent ++ exnEventsOf ex
        ++ [QEvent.setUiState true])).getLast? = some (QEvent.setUiState true) := by
  constructor
  · rw [List.countP_cons_of_neg _ _ (by simp [hx]), List.countP_append,
        List.countP_append, transport_events_no_enable, exn_events_no_enable]
    rfl
  · rw [show x :: (tevs.map TEvent.toQEvent ++ exnEventsOf ex
              ++ [QEvent.setUiState true])
          = (x :: (tevs.map TEvent.toQEvent ++ exnEventsOf ex))
              ++ [QEvent.setUiState true] by simp,
        List.getLast?_concat]

/-- C2: every invocation of the generation worker enqueues
("set_ui_state", True) exactly once, and it is the last event the
invocation enqueues, on all exit paths (unconfigured model, missing
credential, stream success, caught transport failure, or an exception
escaping the transport). -/
theorem get_ai_answer_reenables_controls_once_last
    (inp : WorkerInput) (question : String) (userAnswer : Option String) :
    (get_ai_answer inp question userAnswer).countP QEvent.isEnableControls = 1
    ∧ (get_ai_answer inp question userAnswer).getLast?
        = some (QEvent.setUiState true) := by
  cases hm : MODELS inp.selectedModelName with
  | none =>
      simp only [get_ai_answer, hm]
      exact ⟨rfl, rfl⟩
  | some mc =>
      cases hk : optTruthy (inp.env mc.keyName) with
      | false =>
          simp only [get_ai_answer, hm, hk]
          exact ⟨rfl, rfl⟩
      | true =>
          simp only [get_ai_answer, hm, hk]
          exact worker_tail_spec (QEvent.addMessage _ "" _) rfl _ _

/-- C7: when the credential named by the selected model is missing (or
empty), the worker enqueues exactly one error-tagged entry whose text
names the missing credential key, then the controls-re-enabling event,
and nothing else: no transport is consumed (the result does not depend
on the stream inputs) and only this attempt is aborted. -/
theorem get_ai_answer_missing_credential
    (inp : WorkerInput) (question : String) (userAnswer : Option String)
    (mc : ModelConfig)
    (hm : MODELS inp.selectedModelName = some mc)
    (hk : optTruthy (inp.env mc.keyName) = false) :
    get_ai_answer inp question userAnswer =
      [QEvent.addMessage "Error:"
         ("\n❌ API Key Error: " ++ mc.keyName ++ " not found in .env file.") "error",
       QEvent.setUiState true] := by
  unfold get_ai_answer
  rw [hm]
  simp [hk]

/-- Witness for C7: OpenRouter model selected, no credentials in the
environment at all; the stream inputs are non-trivial yet unread. -/
theorem get_ai_answer_missing_credential_witness :
    get_ai_answer
      { selectedModelName := "Sonoma Sky (OpenRouter)"
        env := fun _ => none
        evaluationMode := false
        personalContext := "P"
        companyContext := ""
        geminiInit := false
        orItems := [RespItem.data (Payload.chunk (some "never"))]
        gItems := [GItem.chunk "never"] } "Q" none =
      [QEvent.addMessage "Error:"
         ("\n❌ API Key Error: " ++ "OPENROUTER_API_KEY" ++ " not found in .env file.") "error",
       QEvent.setUiState true] :=
  get_ai_answer_missing_credential _ "Q" none
    ⟨"openrouter/sonoma-sky-alpha", "openrouter", "OPENROUTER_API_KEY"⟩
    (by decide) (by decide)

/-- The interactive-thread state relevant to submission gating:
whether the input widgets are enabled (_set_ui_state, lines 467-481),
whether the voice-capture thread is running (is_listening), how many
generation worker threads are currently alive, the last_question_asked
slot, the evaluation-mode flag, and a queued ("submit_question", text)
message from the voice thread not yet drained by process_queue. -/
structure SysState where
  controlsEnabled : Bool
  listening : Bool
  activeWorkers : Nat
  lastQuestionAsked : String
  evaluationMode : Bool
  pendingVoice : Option String
deriving DecidableEq

/-- What a call to submit_question_to_ai reports back: an empty text is
ignored (line 484); in evaluation mode with no recorded question a
messagebox warning is shown and nothing else happens (lines 487-489);
otherwise the controls are disabled synchronously and a worker thread is
started on the given question and optional answer (lines 490-497). -/
inductive SubmitResult where
  | ignored : SubmitResult
  | warnedNoQuestion : SubmitResult
  | spawnedWorker (question : String) (userAnswer : Option String) : SubmitResult
deriving DecidableEq

/-- Shallow embedding of submit_question_to_ai (lines 483-497), as a
transition on the interactive-thread state paired with what happened.
Disabling the controls and starting the worker happen in the same
synchronous call, before control returns to the event loop; the model
therefore applies them in one step. -/
def submitQuestionToAI (st : SysState) (text : String) : SysState × SubmitResult :=
  if text = "" then (st, .ignored)
  else if st.evaluationMode then
    if st.lastQuestionAsked = "" then (st, .warnedNoQuestion)
    else
      ({ st with controlsEnabled := false, activeWorkers := st.activeWorkers + 1 },
       .spawnedWorker st.lastQuestionAsked (some text))
  else
    ({ st with lastQuestionAsked := text, controlsEnabled := false,
               activeWorkers := st.activeWorkers + 1 },
     .spawnedWorker text none)

/-- The interactive-thread occurrences that can change the gating state:
a Send click or Return key (send_text_question, delivered by the toolkit
only while the input widgets are enabled); a Voice click starting the
capture thread (toggle_listening, same gating); the capture thread
finishing with recognized text and enqueueing ("submit_question", text)
(line 533); process_queue draining that message and calling
submit_question_to_ai without any enabled-state check (line 606); and
process_queue draining a worker final ("set_ui_state", True), which
re-enables the controls as the worker thread ends (lines 609, 568). -/
inductive UiAction where
  | clickSend (text : String) : UiAction
  | clickVoice : UiAction
  | voiceRecognized (text : String) : UiAction
  | applyQueuedSubmit : UiAction
  | workerFinished : UiAction
deriving DecidableEq

/-- One step of the interactive thread.  Guards model the toolkit:
clicks on disabled widgets are not delivered; a recognition result can
only come from a running capture thread; draining acts on what is
queued. -/
def uiStep (st : SysState) : UiAction → SysState
  | .clickSend text =>
      if st.controlsEnabled then (submitQuestionToAI st text).1 else st
  | .clickVoice =>
      if st.controlsEnabled && !st.listening then { st with listening := true } else st
  | .voiceRecognized text =>
      if st.listening && !text.isEmpty then
        { st with listening := false, pendingVoice := some text }
      else st
  | .applyQueuedSubmit =>
      match st.pendingVoice with
      | some t => (submitQuestionToAI { st with pendingVoice := none } t).1
      | none => st
  | .workerFinished =>
      if st.activeWorkers ≠ 0 then
        { st with activeWorkers := st.activeWorkers - 1, controlsEnabled := true }
      else st

/-- The state at startup: controls enabled, nothing listening, no worker,
no question asked, evaluation mode off (lines 98-109). -/
def uiInit : SysState :=
  { controlsEnabled := true, listening := false, activeWorkers := 0,
    lastQuestionAsked := "", evaluationMode := false, pendingVoice := none }

/-- Run the interactive thread over a sequence of occurrences. -/
def runUi (acts : List UiAction) : SysState := acts.foldl uiStep uiInit

/-- Actions delivered through the message channel rather than through an
input widget. -/
def UiAction.viaQueue : UiAction → Bool
  | .applyQueuedSubmit => true
  | _ => false

/-- C3 counterexample: the claim that at most one generation worker is
ever active fails on the code.  Clicking Voice, then submitting a typed
question (which disables the controls and spawns worker one), lets the
voice thread deliver its recognized text through the queue;
process_queue calls submit_question_to_ai without checking the controls,
spawning a second worker while the first is still active. -/
theorem single_flight_claim_false :
    ¬ (∀ acts : List UiAction, (runUi acts).activeWorkers ≤ 1) := by
  intro h
  have h2 := h [UiAction.clickVoice, UiAction.clickSend "q",
                UiAction.voiceRecognized "v", UiAction.applyQueuedSubmit]
  have he : (runUi [UiAction.clickVoice, UiAction.clickSend "q",
                UiAction.voiceRecognized "v", UiAction.applyQueuedSubmit]).activeWorkers
      = 2 := by decide
  omega

/-- C3 amended: for every run in which no submission is delivered
through the message channel (no applyQueuedSubmit), at most one
generation worker is active at any time, and while one is active the
input controls are disabled — every widget submission path disables the
controls synchronously when it spawns the worker, and disabled widgets
reject further submissions until ("set_ui_state", True) is applied. -/
theorem single_flight_widget_paths (acts : List UiAction)
    (h : ∀ a ∈ acts, a.viaQueue = false) :
    (runUi acts).activeWorkers ≤ 1
    ∧ ((runUi acts).activeWorkers = 1 → (runUi acts).controlsEnabled = false) := by
  suffices hgen : ∀ (l : List UiAction) (st : SysState),
      (∀ a ∈ l, a.viaQueue = false) →
      st.activeWorkers ≤ 1 → (st.activeWorkers = 1 → st.controlsEnabled = false) →
      (l.foldl uiStep st).activeWorkers ≤ 1
      ∧ ((l.foldl uiStep st).activeWorkers = 1 →
          (l.foldl uiStep st).controlsEnabled = false) by
    exact hgen acts uiInit h (by decide) (by decide)
  intro l
  induction l with
  | nil => intro st _ h1 h2; exact ⟨h1, h2⟩
  | cons a rest ih =>
      intro st hl h1 h2
      refine ih (uiStep st a) (fun x hx => hl x (List.mem_cons_of_mem a hx)) ?_ ?_
      · cases a with
        | clickSend text =>
            simp only [uiStep]
            by_cases hc : st.controlsEnabled = true
            · have hw : st.activeWorkers = 0 := by
                rcases Nat.lt_or_ge st.activeWorkers 1 with hlt | hge
                · omega
                · exact absurd (h2 (by omega)) (by simp [hc])
              simp only [hc, if_true]
              unfold submitQuestionToAI
              by_cases ht : text = "" <;>
                by_cases he : st.evaluationMode = true <;>
                by_cases hq : st.lastQuestionAsked = "" <;>
                simp [ht, he, hq, hw]
            · simp [hc]; omega
        | clickVoice =>
            simp only [uiStep]
            by_cases hc : (st.controlsEnabled && !st.listening) = true <;>
              simp [hc, h1]
        | voiceRecognized text =>
            simp only [uiStep]
            by_cases hc : (st.listening && !text.isEmpty) = true <;> simp [hc, h1]
        | applyQueuedSubmit =>
            exact absurd (hl _ (List.mem_cons_self _ _)) (by simp [UiAction.viaQueue])
        | workerFinished =>
            simp only [uiStep]
            by_cases hw : st.activeWorkers ≠ 0 <;> simp [hw] <;> omega
      · cases a with
        | clickSend text =>
            simp only [uiStep]
            by_cases hc : st.controlsEnabled = true
            · simp only [hc, if_true]
              unfold submitQuestionToAI
              by_cases ht : text = "" <;>
                by_cases he : st.evaluationMode = true <;>
                by_cases hq : st.lastQuestionAsked = "" <;>
                simp [ht, he, hq] <;> intro hone <;> exact h2 hone
            · simp only [hc]
              simp
              intro hone
              exact h2 hone
        | clickVoice =>
            simp only [uiStep]
            by_cases hc : (st.controlsEnabled && !st.listening) = true
            · simp only [hc, if_true]
              intro hone
              have := h2 hone
              simp at hc
              simp [hc.1] at this
            · simp [hc]; exact h2
        | voiceRecognized text =>
            simp only [uiStep]
            by_cases hc : (st.listening && !text.isEmpty) = true <;> simp [hc] <;>
              exact h2
        | applyQueuedSubmit =>
            exact absurd (hl _ (List.mem_cons_self _ _)) (by simp [UiAction.viaQueue])
        | workerFinished =>
            simp only [uiStep]
            by_cases hw : st.activeWorkers ≠ 0 <;> simp [hw] <;> omega

/-- Witness for the amended C3 on a concrete widget-only run: submit,
worker finishes, submit again. -/
theorem single_flight_widget_paths_witness :
    (runUi [UiAction.clickSend "q", UiAction.workerFinished,
            UiAction.clickSend "r"]).activeWorkers ≤ 1
    ∧ ((runUi [UiAction.clickSend "q", UiAction.workerFinished,
            UiAction.clickSend "r"]).activeWorkers = 1 →
        (runUi [UiAction.clickSend "q", UiAction.workerFinished,
            UiAction.clickSend "r"]).controlsEnabled = false) :=
  single_flight_widget_paths
    [UiAction.clickSend "q", UiAction.workerFinished, UiAction.clickSend "r"]
    (by decide)

/-- C8: submitting in evaluation mode while last_question_asked is empty
fails deterministically: the user is warned via a messagebox, the state
is unchanged — no controls are disabled, no worker thread is started, so
no network call can be made. -/
theorem submit_eval_without_question_rejected (st : SysState) (text : String)
    (he : st.evaluationMode = true) (hq : st.lastQuestionAsked = "")
    (ht : text ≠ "") :
    submitQuestionToAI st text = (st, SubmitResult.warnedNoQuestion) := by
  unfold submitQuestionToAI
  simp [he, hq, ht]

/-- Witness for C8 at a concrete state. -/
theorem submit_eval_without_question_rejected_witness :
    submitQuestionToAI
      { controlsEnabled := true, listening := false, activeWorkers := 0,
        lastQuestionAsked := "", evaluationMode := true, pendingVoice := none }
      "my answer"
      = ({ controlsEnabled := true, listening := false, activeWorkers := 0,
           lastQuestionAsked := "", evaluationMode := true, pendingVoice := none },
         SubmitResult.warnedNoQuestion) :=
  submit_eval_without_question_rejected _ "my answer" rfl rfl (by decide)

/-- One conversation entry as built by add_message (line 620):
speaker label, text, display tag, and an ISO timestamp string. -/
structure Entry where
  speaker : String
  text : String
  tag : String
  timestamp : String
deriving DecidableEq

/-- The content triple of an entry, the part the round-trip property
compares (timestamps are regenerated on load). -/
def contentOf (e : Entry) : String × String × String := (e.speaker, e.text, e.tag)

/-- Shallow embedding of the history effect of add_message
(lines 619-633): a fresh entry with the current time is appended to
conversation_history unless the message is the welcome message. -/
def add_message (history : List Entry) (speaker text tag now : String)
    (isWelcome : Bool) : List Entry :=
  if isWelcome then history else history ++ [⟨speaker, text, tag, now⟩]

/-- Shallow embedding of save_conversation (lines 650-662): the file
receives json.dump of conversation_history; JSON serialization of a list
of string-field records is modelled as the identity on the records. -/
def save_conversation (history : List Entry) : List Entry := history

/-- Shallow embedding of load_conversation (lines 664-679): the current
conversation is cleared, then every loaded record is replayed through
add_message(speaker, text, tag) in file order (the scheduled callbacks
run in registration order), with a freshly generated timestamp; the
clock argument gives the timestamp the i-th replayed entry receives. -/
def load_conversation (file : List Entry) (clock : Nat → String) : List Entry :=
  file.enum.foldl
    (fun acc ie => add_message acc ie.2.speaker ie.2.text ie.2.tag (clock ie.1) false)
    []

theorem load_foldl_aux (clock : Nat → String) (l : List (Nat × Entry))
    (acc : List Entry) :
    (l.foldl
        (fun acc ie =>
          add_message acc ie.2.speaker ie.2.text ie.2.tag (clock ie.1) false) acc)
      = acc ++ l.map (fun ie => ⟨ie.2.speaker, ie.2.text, ie.2.tag, clock ie.1⟩) := by
  induction l generalizing acc with
  | nil => simp
  | cons x xs ih =>
      rw [List.foldl_cons, ih]
      simp [add_message, List.append_assoc]

/-- C9: saving the conversation and loading the saved file reproduces
the same ordered sequence of entry contents — at every position the
loaded entry has the speaker, text and tag of the saved one; only the
timestamps are regenerated by the load. -/
theorem save_load_roundtrip (history : List Entry) (clock : Nat → String) :
    (load_conversation (save_conversation history) clock).map contentOf
      = history.map contentOf := by
  unfold load_conversation save_conversation
  rw [load_foldl_aux]
  simp only [List.nil_append, List.map_map]
  have : ∀ l : List (Nat × Entry),
      l.map ((fun e => contentOf e) ∘
        (fun ie : Nat × Entry => Entry.mk ie.2.speaker ie.2.text ie.2.tag (clock ie.1)))
        = l.map (fun ie => contentOf ie.2) := by
    intro l
    induction l with
    | nil => rfl
    | cons x xs ih => simp [contentOf, ih]
  rw [this]
  have h2 : ∀ (l : List Entry) (n : Nat),
      (List.enumFrom n l).map (fun ie : Nat × Entry => contentOf ie.2)
        = l.map contentOf := by
    intro l
    induction l with
    | nil => intro n; rfl
    | cons e es ih => intro n; simp [List.enumFrom, ih]
  simpa [List.enum] using h2 history 0

/-- The in-memory view: the visible transcript text and the owned
conversation history. -/
structure ViewState where
  transcript : String
  history : List Entry
deriving DecidableEq

/-- The guarded last-entry mutation of append_to_last_message
(lines 639-640): if the history is non-empty the chunk is concatenated
onto the text of its last entry; an empty history is left untouched. -/
def appendLastEntry : List Entry → String → List Entry
  | [], _ => []
  | [e], c => [{ e with text := e.text ++ c }]
  | e :: f :: rest, c => e :: appendLastEntry (f :: rest) c

/-- Shallow embedding of append_to_last_message (lines 635-640): the
chunk is inserted at the end of the visible transcript, and the history
mutation is guarded by the non-emptiness check on line 639. -/
def append_to_last_message (st : ViewState) (chunk : String) : ViewState :=
  { transcript := st.transcript ++ chunk, history := appendLastEntry st.history chunk }

/-- C10: applying a stream_update while the conversation history is
empty is safe: the chunk is appended to the visible transcript, the
history stays empty (the guard skips the last-entry mutation), and no
out-of-range access can occur — append_to_last_message is total and is
the identity on the empty history component. -/
theorem append_to_last_message_empty_history (t c : String) :
    append_to_last_message ⟨t, []⟩ c = ⟨t ++ c, []⟩ := rfl

end InterviewAssistant
